import Mathlib

/-!
Verification development for the `streamlit-autogen` CSV data-analysis app
(`src/main.py`).  The Python source is shallowly embedded: pure helper
functions become Lean functions, the mutable Streamlit session history
becomes explicit list passing, the pandas dataframe becomes an explicit
`Dataset` of named columns of cells, and the retrying CSV loader becomes a
function over an oracle giving the outcome of each read attempt.
-/

namespace StreamlitAutogen

/-! ## Substring search

Python's `"TERMINATE" in content` is case-sensitive substring search.
`leadMatch pat l` checks whether `pat` matches at the head of `l`, and
`anyLead pat l` scans every suffix of `l`. -/

def leadMatch : List Char → List Char → Bool
  | [], _ => true
  | _ :: _, [] => false
  | p :: ps, h :: hs => p == h && leadMatch ps hs

def anyLead (pat : List Char) : List Char → Bool
  | [] => leadMatch pat []
  | h :: hs => leadMatch pat (h :: hs) || anyLead pat hs

/-- `strHasTok hay pat` embeds Python's `pat in hay` substring test. -/
def strHasTok (hay pat : String) : Bool :=
  anyLead pat.data hay.data

/-! ## Messages and termination detection

Embeds `src/main.py` line 106:
`is_termination_msg=lambda msg: msg.get("content") is not None and "TERMINATE" in msg["content"]`.
A message's `content` field may be absent or null; both are `none`. -/

structure Message where
  content : Option String

def is_termination_msg (msg : Message) : Bool :=
  match msg.content with
  | none => false
  | some content => strHasTok content "TERMINATE"

/-- Modelled from the spec: the exchange loop itself lives in the external
autogen framework (`user_proxy.initiate_chat`, not part of this repository).
Per the spec, the exchange ends exactly when a produced message satisfies
the termination predicate; we model the stream of produced messages as a
list and the loop as stopping at the first terminating message. -/
def run_exchange : List Message → Option Message
  | [] => none
  | m :: ms => if is_termination_msg m then some m else run_exchange ms

/-! ## Conversation history

Embeds `add_to_history` (src/main.py lines 128-129): the Streamlit session
history is a list of role/content dicts, mutated only by `append`.  The
mutable list becomes explicit state passing. -/

structure Turn where
  role : String
  content : String

def add_to_history (hist : List Turn) (role content : String) : List Turn :=
  hist ++ [⟨role, content⟩]

/-- Calling `add_to_history` once per element of `ts`, in order. -/
def appendTurns (hist : List Turn) (ts : List Turn) : List Turn :=
  ts.foldl (fun l t => add_to_history l t.role t.content) hist

/-- Python's `"\n".join(xs)`. -/
def joinSep (sep : String) : List String → String
  | [] => ""
  | [x] => x
  | x :: y :: xs => x ++ sep ++ joinSep sep (y :: xs)

/-- Embeds line 153: each history entry rendered as `role: content`,
joined by newlines. -/
def history_text (hist : List Turn) : String :=
  joinSep "\n" (hist.map fun msg => msg.role ++ ": " ++ msg.content)

/-- Embeds line 154: the prompt handed to `user_proxy.initiate_chat`. -/
def build_prompt (hist : List Turn) (query : String) : String :=
  "Conversation history:\n" ++ history_text hist ++
    "\n\nAnalyze the following data based on this query: " ++ query

/-- Embeds the query-handling block (lines 143-164).  The user query is
first appended to the history (line 145); `analyze_data` then builds the
prompt from the history *as it stands after that append* (lines 151-154);
the external exchange returns `summary` (line 156), which is appended as an
assistant turn (line 164).  Returns the new history and the prompt that was
sent. -/
def handle_user_query (hist : List Turn) (query summary : String) :
    List Turn × String :=
  let hist1 := add_to_history hist "user" query
  let prompt := build_prompt hist1 query
  let result := summary
  (add_to_history hist1 "assistant" result, prompt)

/-- Count of occurrences of `pat` as a substring (match positions) of
`hay`, used to state how often the query occurs in the prompt. -/
def countTokAux (pat : List Char) : List Char → Nat
  | [] => if leadMatch pat [] then 1 else 0
  | h :: hs => (if leadMatch pat (h :: hs) then 1 else 0) + countTokAux pat hs

def countTok (hay pat : String) : Nat :=
  countTokAux pat.data hay.data

/-! ## Dataset model

The pandas dataframe is embedded as an ordered list of named columns; a
cell is a rational number, a text value, or null (NaN / missing).  The
pandas dtype string is carried as data on the column. -/

inductive Cell
  | num (q : ℚ)
  | text (s : String)
  | null
deriving DecidableEq

structure Column where
  name : String
  dtype : String
  values : List Cell
deriving DecidableEq

structure Dataset where
  cols : List Column
deriving DecidableEq

def Dataset.columns (df : Dataset) : List String :=
  df.cols.map Column.name

/-- Python's `column_name in df.columns`. -/
def Dataset.hasCol (df : Dataset) (n : String) : Bool :=
  df.columns.contains n

/-- Python's `df[column_name]` (first column of that name). -/
def Dataset.getCol (df : Dataset) (n : String) : Column :=
  (df.cols.find? fun c => c.name == n).getD ⟨n, "", []⟩

/-! ## CSV loader with retry (src/main.py lines 8-23)

`pd.read_csv` is external; each call either yields a dataframe, raises
`EmptyDataError`, or raises some other error.  `reads k` is the outcome of
the `(k+1)`-th read attempt.  `totalWait` counts backoff units of 0.5 s:
`time.sleep(0.5 * (attempt + 1))` waits `attempt + 1` units. -/

inductive ParseOutcome
  | ok (d : Dataset)
  | emptyErr
  | otherErr

def ParseOutcome.isOk : ParseOutcome → Bool
  | .ok _ => true
  | _ => false

inductive LoadErr
  | emptyContent
  | other
deriving DecidableEq

structure LoadResult where
  result : Except LoadErr Dataset
  attempts : Nat
  totalWait : Nat

/-- The `for attempt in range(3)` retry loop: `todo` is the list of
remaining loop indices, `made` the number of read attempts already made,
`waited` the backoff units slept so far.  On `EmptyDataError` with
`attempt < 2` it sleeps `attempt + 1` units and continues; at `attempt = 2`
it re-raises. -/
def retry_loop (reads : Nat → ParseOutcome) :
    List Nat → Nat → Nat → LoadResult
  | [], made, waited => ⟨.error .emptyContent, made, waited⟩
  | attempt :: rest, made, waited =>
    match reads made with
    | .ok d => ⟨.ok d, made + 1, waited⟩
    | .otherErr => ⟨.error .other, made + 1, waited⟩
    | .emptyErr =>
      if attempt < 2 then
        retry_loop reads rest (made + 1) (waited + (attempt + 1))
      else
        ⟨.error .emptyContent, made + 1, waited⟩

/-- Embeds `load_data`: one initial `pd.read_csv` attempt; only on
`EmptyDataError` does it enter the retry loop `for attempt in range(3)`. -/
def load_data (reads : Nat → ParseOutcome) : LoadResult :=
  match reads 0 with
  | .ok d => ⟨.ok d, 1, 0⟩
  | .otherErr => ⟨.error .other, 1, 0⟩
  | .emptyErr => retry_loop reads [0, 1, 2] 1 0

/-! ## Tools (src/main.py lines 60-100)

Each pandas call on `df` is embedded over the `Dataset` model.  None of
the Python tool bodies assigns to `df` or to any other global. -/

def isNullCell : Cell → Bool
  | .null => true
  | _ => false

def cellNum : Cell → Option ℚ
  | .num q => some q
  | _ => none

def renderCell : Cell → String
  | .num q => toString q
  | .text s => "\x27" ++ s ++ "\x27"
  | .null => "nan"

/-- `df[c].nunique()`: distinct non-null values. -/
def nunique (c : Column) : Nat :=
  ((c.values.filter fun v => !isNullCell v).dedup).length

def insertByCount (p : Cell × Nat) : List (Cell × Nat) → List (Cell × Nat)
  | [] => [p]
  | q :: qs => if q.2 ≤ p.2 then p :: q :: qs else q :: insertByCount p qs

def sortByCount : List (Cell × Nat) → List (Cell × Nat)
  | [] => []
  | p :: ps => insertByCount p (sortByCount ps)

/-- `df[c].value_counts()`: occurrence counts of the distinct non-null
values, largest first. -/
def value_counts (vs : List Cell) : List (Cell × Nat) :=
  sortByCount (((vs.filter fun v => !isNullCell v).dedup).map fun v => (v, vs.count v))

/-- Python dict rendering `{k: v, ...}`. -/
def renderPairs (ps : List (Cell × Nat)) : String :=
  "\x7b" ++ joinSep ", " (ps.map fun p => renderCell p.1 ++ ": " ++ toString p.2) ++ "\x7d"

/-- Embeds `get_column_info` (lines 63-70). -/
def get_column_info (df : Dataset) (column_name : String) : String :=
  if df.hasCol column_name then
    let col := df.getCol column_name
    "Column \x27" ++ column_name ++ "\x27:\n" ++
      "Type: " ++ col.dtype ++ "\n" ++
      "Unique values: " ++ toString (nunique col) ++ "\n" ++
      "Top 5 values: " ++ renderPairs ((value_counts col.values).take 5)
  else
    "Column \x27" ++ column_name ++ "\x27 not found in the dataframe."

/-- Rows where both cells are numeric (pandas `Series.corr` uses pairwise
complete observations, dropping rows where either side is NaN). -/
def numPairs (xs ys : List Cell) : List (ℚ × ℚ) :=
  (xs.zip ys).filterMap fun p =>
    match cellNum p.1, cellNum p.2 with
    | some x, some y => some (x, y)
    | _, _ => none

def sumQ (l : List ℚ) : ℚ := l.foldr (fun a b => a + b) 0

/-- Numerator of the (n-scaled) Pearson coefficient:
`n·Σxy − Σx·Σy`. -/
def pearsonNum (ps : List (ℚ × ℚ)) : ℚ :=
  (ps.length : ℚ) * sumQ (ps.map fun p => p.1 * p.2) -
    sumQ (ps.map Prod.fst) * sumQ (ps.map Prod.snd)

/-- Square of the matching denominator:
`(n·Σx² − (Σx)²) · (n·Σy² − (Σy)²)`. -/
def pearsonDenSq (ps : List (ℚ × ℚ)) : ℚ :=
  ((ps.length : ℚ) * sumQ (ps.map fun p => p.1 * p.1) - sumQ (ps.map Prod.fst) ^ 2) *
    ((ps.length : ℚ) * sumQ (ps.map fun p => p.2 * p.2) - sumQ (ps.map Prod.snd) ^ 2)

/-- Result of `calculate_correlation`: the Pearson coefficient
`num / √denSq` is carried by its exact algebraic components (a square root
is irrational in general, so the value is represented, not evaluated), or
the sentinel string when a column is missing. -/
inductive CorrResult
  | val (num denSq : ℚ)
  | msg (s : String)
deriving DecidableEq

/-- Embeds `calculate_correlation` (lines 72-76). -/
def calculate_correlation (df : Dataset) (column1 column2 : String) : CorrResult :=
  if df.hasCol column1 && df.hasCol column2 then
    .val (pearsonNum (numPairs (df.getCol column1).values (df.getCol column2).values))
      (pearsonDenSq (numPairs (df.getCol column1).values (df.getCol column2).values))
  else
    .msg "One or both columns not found in the dataframe."

/-- `df.isnull()`: per column, the null mask of its cells. -/
def Dataset.isnull (df : Dataset) : List (String × List Bool) :=
  df.cols.map fun c => (c.name, c.values.map isNullCell)

/-- `.sum()` over the null masks: per column, the count of `true`. -/
def seriesSum (s : List (String × List Bool)) : List (String × Nat) :=
  s.map fun p => (p.1, p.2.count true)

/-- Embeds `get_missing_values` (lines 78-79):
`df.isnull().sum().to_dict()`. -/
def get_missing_values (df : Dataset) : List (String × Nat) :=
  seriesSum df.isnull

def numericValues (c : Column) : List ℚ :=
  c.values.filterMap cellNum

def minQ : List ℚ → ℚ
  | [] => 0
  | x :: xs => xs.foldl min x

def maxQ : List ℚ → ℚ
  | [] => 0
  | x :: xs => xs.foldl max x

def meanQ (l : List ℚ) : ℚ := sumQ l / (l.length : ℚ)

/-- pandas `Series.describe().to_dict()` is external library code; it is
modelled by its count / mean / min / max entries over the column's numeric
values (std and quartiles are irrational in general; no claim inspects the
entries). -/
def describe_dict (c : Column) : List (String × ℚ) :=
  let vs := numericValues c
  [("count", (vs.length : ℚ)), ("mean", meanQ vs), ("min", minQ vs), ("max", maxQ vs)]

/-- Result of `generate_summary_stats`: a statistics mapping, or the
sentinel string when the column is missing. -/
inductive StatsResult
  | dict (entries : List (String × ℚ))
  | msg (s : String)
deriving DecidableEq

/-- Embeds `generate_summary_stats` (lines 81-85). -/
def generate_summary_stats (df : Dataset) (column_name : String) : StatsResult :=
  if df.hasCol column_name then
    .dict (describe_dict (df.getCol column_name))
  else
    .msg ("Column \x27" ++ column_name ++ "\x27 not found in the dataframe.")

def renderStats (l : List (String × ℚ)) : String :=
  "\x7b" ++ joinSep ", " (l.map fun p => p.1 ++ ": " ++ toString p.2) ++ "\x7d"

/-- Embeds `describe_data` (lines 60-61): `df.describe().to_string()`,
modelled as the per-column rendering of `describe_dict`. -/
def describe_data (df : Dataset) : String :=
  joinSep "\n" (df.cols.map fun c => c.name ++ " " ++ renderStats (describe_dict c))

/-! ## Tool registry (lines 94-100) -/

inductive ToolCall
  | describeCall
  | colInfo (column_name : String)
  | corrCall (column1 column2 : String)
  | missingCall
  | statsCall (column_name : String)
deriving DecidableEq

inductive ToolOut
  | str (s : String)
  | corr (r : CorrResult)
  | natDict (m : List (String × Nat))
  | stats (r : StatsResult)
deriving DecidableEq

/-- The `tools` dictionary: name-indexed dispatch into the five
registered tools. -/
def dispatch (df : Dataset) : ToolCall → ToolOut
  | .describeCall => .str (describe_data df)
  | .colInfo n => .str (get_column_info df n)
  | .corrCall a b => .corr (calculate_correlation df a b)
  | .missingCall => .natDict (get_missing_values df)
  | .statsCall n => .stats (generate_summary_stats df n)

/-- Running a tool against the session state.  No Python tool body assigns
to `df` or to any other global, so the session state is returned
unchanged; this is the state-passing form of that observation. -/
def runTool (call : ToolCall) (df : Dataset) : ToolOut × Dataset :=
  (dispatch df call, df)

/-! ## Concrete example data, used by witnesses and counterexamples -/

/-- A three-column, five-row dataset; column `a` has two missing values. -/
def exCol : Column := ⟨"a", "float64", [.num 1, .null, .num 3, .null, .num 5]⟩

def exColB : Column := ⟨"b", "float64", [.num 2, .num 4, .num 6, .num 8, .num 10]⟩

def exColC : Column := ⟨"c", "object", [.text "x", .text "y", .text "x", .text "z", .text "x"]⟩

def exDf : Dataset := ⟨[exCol, exColB, exColC]⟩

/-- Read oracle: the first two `pd.read_csv` attempts raise
`EmptyDataError`, the third succeeds. -/
def twoFailReads : Nat → ParseOutcome :=
  fun n => if n < 2 then .emptyErr else .ok ⟨[]⟩

/-- Read oracle: the first three `pd.read_csv` attempts raise
`EmptyDataError`, the fourth succeeds. -/
def threeFailReads : Nat → ParseOutcome :=
  fun n => if n < 3 then .emptyErr else .ok ⟨[]⟩

/-! ## Helper lemmas -/

theorem leadMatch_iff (pat : List Char) : ∀ l : List Char,
    leadMatch pat l = true ↔ ∃ t, l = pat ++ t := by
  induction pat with
  | nil => intro l; simp [leadMatch]
  | cons p ps ih =>
    intro l
    cases l with
    | nil => simp [leadMatch]
    | cons h hs =>
      simp only [leadMatch, Bool.and_eq_true, beq_iff_eq, ih hs, List.cons_append,
        List.cons.injEq]
      constructor
      · rintro ⟨hph, t, ht⟩; exact ⟨t, hph.symm, ht⟩
      · rintro ⟨t, hph, ht⟩; exact ⟨hph.symm, t, ht⟩

theorem anyLead_iff (pat : List Char) : ∀ l : List Char,
    anyLead pat l = true ↔ ∃ a b, l = a ++ pat ++ b := by
  intro l
  induction l with
  | nil =>
    simp only [anyLead, leadMatch_iff]
    constructor
    · rintro ⟨t, ht⟩; exact ⟨[], t, by simpa using ht⟩
    · rintro ⟨a, b, hab⟩
      rcases List.append_eq_nil.mp hab.symm with ⟨h1, h2⟩
      rcases List.append_eq_nil.mp h1 with ⟨_, h3⟩
      exact ⟨b, by simp [h3, h2]⟩
  | cons h hs ih =>
    simp only [anyLead, Bool.or_eq_true, leadMatch_iff, ih]
    constructor
    · rintro (⟨t, ht⟩ | ⟨a, b, hab⟩)
      · exact ⟨[], t, by simpa using ht⟩
      · exact ⟨h :: a, b, by simp [hab]⟩
    · rintro ⟨a, b, hab⟩
      cases a with
      | nil => exact Or.inl ⟨b, by simpa using hab⟩
      | cons h2 a2 =>
        simp only [List.cons_append, List.cons.injEq] at hab
        exact Or.inr ⟨a2, b, hab.2⟩

theorem strHasTok_iff (hay pat : String) :
    strHasTok hay pat = true ↔ ∃ a b : String, hay = a ++ pat ++ b := by
  unfold strHasTok
  rw [anyLead_iff]
  constructor
  · rintro ⟨a, b, hab⟩
    refine ⟨String.mk a, String.mk b, ?_⟩
    apply String.ext
    simpa [String.data_append] using hab
  · rintro ⟨a, b, rfl⟩
    exact ⟨a.data, b.data, by simp [String.data_append]⟩

theorem run_exchange_eq_find (msgs : List Message) :
    run_exchange msgs = msgs.find? is_termination_msg := by
  induction msgs with
  | nil => rfl
  | cons m ms ih =>
    cases h : is_termination_msg m with
    | true => simp [run_exchange, List.find?_cons, h]
    | false => simp [run_exchange, List.find?_cons, h, ih]

theorem joinSep_cons_of_ne (sep x : String) (l : List String) (h : l ≠ []) :
    joinSep sep (x :: l) = x ++ sep ++ joinSep sep l := by
  cases l with
  | nil => exact absurd rfl h
  | cons y ys => rfl

theorem history_text_snoc (hist : List Turn) (r c : String) :
    ∃ a : String, history_text (hist ++ [⟨r, c⟩]) = a ++ (r ++ ": " ++ c) := by
  induction hist with
  | nil =>
    refine ⟨"", ?_⟩
    apply String.ext
    simp [history_text, joinSep, String.data_append]
  | cons h hs ih =>
    obtain ⟨a, ha⟩ := ih
    refine ⟨(h.role ++ ": " ++ h.content) ++ "\n" ++ a, ?_⟩
    have hne : (hs ++ [(⟨r, c⟩ : Turn)]).map (fun msg => msg.role ++ ": " ++ msg.content) ≠ [] := by
      simp
    have hstep : history_text ((h :: hs) ++ [(⟨r, c⟩ : Turn)]) =
        (h.role ++ ": " ++ h.content) ++ "\n" ++ history_text (hs ++ [⟨r, c⟩]) := by
      simpa [history_text] using
        joinSep_cons_of_ne "\n" (h.role ++ ": " ++ h.content)
          ((hs ++ [(⟨r, c⟩ : Turn)]).map fun msg => msg.role ++ ": " ++ msg.content) hne
    rw [hstep, ha]
    simp [String.append_assoc]

theorem count_true_map (l : List Cell) :
    (l.map isNullCell).count true = l.countP fun v => isNullCell v := by
  induction l with
  | nil => rfl
  | cons v vs ih =>
    cases hv : isNullCell v <;> simp [List.count_cons, List.countP_cons, hv, ih]

theorem appendTurns_eq (ts : List Turn) : ∀ log : List Turn,
    appendTurns log ts = log ++ ts := by
  induction ts with
  | nil => intro log; simp [appendTurns]
  | cons t ts ih =>
    intro log
    have h1 : appendTurns log (t :: ts) = appendTurns (log ++ [t]) ts := rfl
    rw [h1, ih]
    simp

theorem numPairs_swap (xs ys : List Cell) :
    numPairs ys xs = (numPairs xs ys).map Prod.swap := by
  unfold numPairs
  rw [← List.zip_swap xs ys, List.filterMap_map, List.map_filterMap]
  apply List.filterMap_congr
  intro p _
  cases hu : cellNum p.1 <;> cases hv : cellNum p.2 <;>
    simp [Function.comp, Prod.swap, hu, hv]

theorem pearsonNum_swap (ps : List (ℚ × ℚ)) :
    pearsonNum (ps.map Prod.swap) = pearsonNum ps := by
  unfold pearsonNum
  rw [List.length_map, List.map_map, List.map_map, List.map_map]
  have h1 : ps.map ((fun p : ℚ × ℚ => p.1 * p.2) ∘ Prod.swap) =
      ps.map (fun p : ℚ × ℚ => p.1 * p.2) :=
    List.map_congr_left fun a _ => mul_comm a.2 a.1
  have h2 : ps.map (Prod.fst ∘ Prod.swap) = ps.map Prod.snd := rfl
  have h3 : ps.map (Prod.snd ∘ Prod.swap) = ps.map Prod.fst := rfl
  rw [h1, h2, h3, mul_comm (sumQ (ps.map Prod.snd))]

theorem pearsonDenSq_swap (ps : List (ℚ × ℚ)) :
    pearsonDenSq (ps.map Prod.swap) = pearsonDenSq ps := by
  unfold pearsonDenSq
  rw [List.length_map, List.map_map, List.map_map, List.map_map, List.map_map]
  have h1 : ps.map ((fun p : ℚ × ℚ => p.1 * p.1) ∘ Prod.swap) =
      ps.map (fun p : ℚ × ℚ => p.2 * p.2) := rfl
  have h2 : ps.map ((fun p : ℚ × ℚ => p.2 * p.2) ∘ Prod.swap) =
      ps.map (fun p : ℚ × ℚ => p.1 * p.1) := rfl
  have h3 : ps.map (Prod.fst ∘ Prod.swap) = ps.map Prod.snd := rfl
  have h4 : ps.map (Prod.snd ∘ Prod.swap) = ps.map Prod.fst := rfl
  rw [h1, h2, h3, h4, mul_comm]

/-! ## Claims -/

/-- Claim C1: the termination predicate is true for a message with
non-null content exactly when `TERMINATE` occurs in the content as a
case-sensitive substring; the (spec-modelled) exchange ends at the first
such message; and handling a query appends the returned summary as exactly
one new assistant turn after the user turn. -/
theorem C1_termination_token :
    (∀ (m : Message) (c : String), m.content = some c →
      (is_termination_msg m = true ↔ ∃ a b : String, c = a ++ "TERMINATE" ++ b)) ∧
    (∀ msgs : List Message, run_exchange msgs = msgs.find? is_termination_msg) ∧
    (∀ (hist : List Turn) (query summary : String),
      (handle_user_query hist query summary).1 =
        hist ++ [⟨"user", query⟩, ⟨"assistant", summary⟩]) := by
  refine ⟨?_, run_exchange_eq_find, ?_⟩
  · intro m c h
    have hm : is_termination_msg m = strHasTok c "TERMINATE" := by
      unfold is_termination_msg
      rw [h]
    rw [hm, strHasTok_iff]
  · intro hist query summary
    simp [handle_user_query, add_to_history, build_prompt]

/-- Witness for C1 at a concrete message, history and query. -/
theorem C1_termination_token_witness :
    ((is_termination_msg ⟨some "done. TERMINATE"⟩ = true ↔
      ∃ a b : String, "done. TERMINATE" = a ++ "TERMINATE" ++ b) ∧
      (handle_user_query [] "q1" "s1").1 =
        [] ++ [⟨"user", "q1"⟩, ⟨"assistant", "s1"⟩]) ∧
    is_termination_msg ⟨some "done. TERMINATE"⟩ = true :=
  ⟨⟨C1_termination_token.1 ⟨some "done. TERMINATE"⟩ "done. TERMINATE" rfl,
    C1_termination_token.2.2 [] "q1" "s1"⟩, by decide⟩

/-- Claim C2 (amended): `load_data` makes at most 4 read attempts in total
(one initial attempt plus up to 3 retries); when the first two attempts
fail with empty content and the third succeeds, it succeeds on the third
attempt having waited 1 backoff unit; when the first three fail and the
fourth succeeds, it has waited 1+2 units; the empty-content error is
surfaced only after all four attempts fail. -/
theorem C2_load_retry :
    ∀ reads : Nat → ParseOutcome,
      (load_data reads).attempts ≤ 4 ∧
      (reads 0 = .emptyErr → reads 1 = .emptyErr → (reads 2).isOk = true →
        (load_data reads).result.isOk = true ∧ (load_data reads).attempts = 3 ∧
          (load_data reads).totalWait = 1) ∧
      (reads 0 = .emptyErr → reads 1 = .emptyErr → reads 2 = .emptyErr →
        (reads 3).isOk = true →
        (load_data reads).result.isOk = true ∧ (load_data reads).attempts = 4 ∧
          (load_data reads).totalWait = 1 + 2) ∧
      ((load_data reads).result = .error .emptyContent →
        reads 0 = .emptyErr ∧ reads 1 = .emptyErr ∧ reads 2 = .emptyErr ∧
          reads 3 = .emptyErr) := by
  intro reads
  cases h0 : reads 0 <;> cases h1 : reads 1 <;> cases h2 : reads 2 <;>
    cases h3 : reads 3 <;>
    simp_all [load_data, retry_loop, ParseOutcome.isOk, Except.isOk, Except.toBool]

/-- Witness for C2 (amended): three empty-content failures then success. -/
theorem C2_load_retry_witness :
    (load_data threeFailReads).result.isOk = true ∧
      (load_data threeFailReads).attempts = 4 ∧
      (load_data threeFailReads).totalWait = 1 + 2 :=
  (C2_load_retry threeFailReads).2.2.1 rfl rfl rfl rfl

/-- Counterexample to C2 as stated: with two empty-content failures then
success, `load_data` succeeds on the third attempt but has waited only 1
backoff unit (not at least 1+2); and with three failures then success it
makes 4 attempts (not at most 3). -/
theorem C2_load_retry_counterexample :
    (load_data twoFailReads).result.isOk = true ∧
      (load_data twoFailReads).attempts = 3 ∧
      (load_data twoFailReads).totalWait = 1 ∧
      ¬ (1 + 2 ≤ (load_data twoFailReads).totalWait) ∧
      (load_data threeFailReads).result.isOk = true ∧
      (load_data threeFailReads).attempts = 4 ∧
      ¬ ((load_data threeFailReads).attempts ≤ 3) := by decide

/-- Claim C3 (amended): the instruction sent to the responder is the
header, then all conversation turns *including the just-appended user
query turn* (each role-prefixed, newline-joined), then the directive
carrying the query once more — so the query occurs (at least) twice, as
the final history line and again in the directive, not exactly once. -/
theorem C3_prompt_structure :
    ∀ (hist : List Turn) (query summary : String),
      (handle_user_query hist query summary).2 =
        "Conversation history:\n" ++ history_text (hist ++ [⟨"user", query⟩]) ++
          "\n\nAnalyze the following data based on this query: " ++ query ∧
      ∃ a : String, (handle_user_query hist query summary).2 =
        a ++ ("user" ++ ": " ++ query) ++
          ("\n\nAnalyze the following data based on this query: " ++ query) := by
  intro hist query summary
  have h1 : (handle_user_query hist query summary).2 =
      "Conversation history:\n" ++ history_text (hist ++ [⟨"user", query⟩]) ++
        "\n\nAnalyze the following data based on this query: " ++ query := rfl
  refine ⟨h1, ?_⟩
  obtain ⟨a, ha⟩ := history_text_snoc hist "user" query
  refine ⟨"Conversation history:\n" ++ a, ?_⟩
  rw [h1, ha]
  simp [String.append_assoc]

set_option maxHeartbeats 2000000 in
/-- Counterexample to C3 as stated: with empty prior history and query
`XYZq`, the query occurs twice in the instruction, not exactly once. -/
theorem C3_prompt_counterexample :
    countTok (handle_user_query [] "XYZq" "s").2 "XYZq" = 2 ∧
      countTok (handle_user_query [] "XYZq" "s").2 "XYZq" ≠ 1 := by decide

/-- Claim C4: on a column name not present in the dataset,
`get_column_info` and `generate_summary_stats` return the not-found
sentinel string, which contains the literal column name and the marker
`not found` as substrings (the Python bodies raise nothing: both sides of
their conditional are plain returns). -/
theorem C4_missing_column_sentinels :
    ∀ (df : Dataset) (column_name : String), df.hasCol column_name = false →
      get_column_info df column_name =
          "Column \x27" ++ column_name ++ "\x27 not found in the dataframe." ∧
      generate_summary_stats df column_name =
          .msg ("Column \x27" ++ column_name ++ "\x27 not found in the dataframe.") ∧
      strHasTok ("Column \x27" ++ column_name ++ "\x27 not found in the dataframe.")
          column_name = true ∧
      strHasTok ("Column \x27" ++ column_name ++ "\x27 not found in the dataframe.")
          "not found" = true := by
  intro df column_name h
  refine ⟨by simp [get_column_info, h], by simp [generate_summary_stats, h], ?_, ?_⟩
  · rw [strHasTok_iff]
    exact ⟨"Column \x27", "\x27 not found in the dataframe.", rfl⟩
  · rw [strHasTok_iff]
    refine ⟨"Column \x27" ++ column_name ++ "\x27 ", " in the dataframe.", ?_⟩
    apply String.ext
    simp only [String.data_append, List.append_assoc]
    congr 2

/-- Witness for C4 at a concrete dataset and missing column name. -/
theorem C4_missing_column_sentinels_witness :
    exDf.hasCol "missing_col" = false ∧
    get_column_info exDf "missing_col" =
        "Column \x27" ++ "missing_col" ++ "\x27 not found in the dataframe." ∧
    generate_summary_stats exDf "missing_col" =
        .msg ("Column \x27" ++ "missing_col" ++ "\x27 not found in the dataframe.") :=
  ⟨by decide,
    (C4_missing_column_sentinels exDf "missing_col" (by decide)).1,
    (C4_missing_column_sentinels exDf "missing_col" (by decide)).2.1⟩

/-- Claim C5: if either argument names a missing column,
`calculate_correlation` returns the not-found sentinel string (the Python
body is a plain conditional return; nothing is raised). -/
theorem C5_corr_missing_sentinel :
    ∀ (df : Dataset) (column1 column2 : String),
      df.hasCol column1 = false ∨ df.hasCol column2 = false →
      calculate_correlation df column1 column2 =
        .msg "One or both columns not found in the dataframe." := by
  intro df c1 c2 h
  rcases h with h | h <;> simp [calculate_correlation, h]

/-- Witness for C5 at a concrete dataset and a missing second column. -/
theorem C5_corr_missing_sentinel_witness :
    calculate_correlation exDf "a" "zzz" =
      .msg "One or both columns not found in the dataframe." :=
  C5_corr_missing_sentinel exDf "a" "zzz" (Or.inr (by decide))

/-- Claim C6: `calculate_correlation` is symmetric in its two column
arguments (for every dataset and every pair of names, hence in particular
for numeric columns). -/
theorem C6_corr_symmetric :
    ∀ (df : Dataset) (a b : String),
      calculate_correlation df a b = calculate_correlation df b a := by
  intro df a b
  unfold calculate_correlation
  rw [Bool.and_comm]
  cases h : (df.hasCol b && df.hasCol a) with
  | false => simp [h]
  | true =>
    simp only [h, if_true]
    rw [numPairs_swap (df.getCol a).values (df.getCol b).values,
      pearsonNum_swap, pearsonDenSq_swap]

/-- Claim C7: `get_missing_values` keys are exactly the dataset's columns,
in order, and each column is mapped to the number of its null cells. -/
theorem C7_missing_values_map :
    ∀ df : Dataset,
      (get_missing_values df).map Prod.fst = df.columns ∧
      get_missing_values df =
        df.cols.map fun c => (c.name, c.values.countP fun v => isNullCell v) := by
  intro df
  constructor
  · simp [get_missing_values, seriesSum, Dataset.isnull, Dataset.columns,
      List.map_map, Function.comp]
  · simp only [get_missing_values, seriesSum, Dataset.isnull, List.map_map]
    apply List.map_congr_left
    intro c _
    exact congrArg (Prod.mk c.name) (count_true_map c.values)

/-- Claim C8: appending N turns through `add_to_history` yields a history
of length exactly N (from empty), in call order; every previously present
turn survives unchanged as a prefix. -/
theorem C8_history_append_only :
    ∀ (ts log : List Turn),
      appendTurns log ts = log ++ ts ∧
      (appendTurns [] ts).length = ts.length ∧
      log <+: appendTurns log ts := by
  intro ts log
  refine ⟨appendTurns_eq ts log, ?_, ?_⟩
  · rw [appendTurns_eq ts []]
    simp
  · exact ⟨ts, (appendTurns_eq ts log).symm⟩

/-- Claim C9: every registered tool, run through the dispatch table, is a
pure function of the dataset and its arguments: the session state is
returned unchanged, and a second invocation on the resulting state yields
the same result. -/
theorem C9_tools_pure :
    ∀ (df : Dataset) (call : ToolCall),
      (runTool call df).2 = df ∧
      (runTool call (runTool call df).2).1 = (runTool call df).1 := by
  intro df call
  exact ⟨rfl, rfl⟩

/-- Claim C10: a message whose content is absent or null never satisfies
the termination predicate (the Python lambda short-circuits on
`msg.get("content") is not None`; nothing is raised and the result is
False). -/
theorem C10_null_content_safe :
    ∀ m : Message, m.content = none → is_termination_msg m = false := by
  intro m h
  unfold is_termination_msg
  rw [h]

/-- Witness for C10 at the concrete content-less message. -/
theorem C10_null_content_safe_witness :
    is_termination_msg ⟨none⟩ = false :=
  C10_null_content_safe ⟨none⟩ rfl

end StreamlitAutogen
